import Mathlib

/-!
Shallow embedding of `src/descartes/patch.py`: the `Polygon` adapter class,
`PolygonPath` and `PolygonPatch`.

Modelling conventions:
- A coordinate pair is an opaque type `α` (the code never inspects coordinate
  values, it only moves them around).
- A ring is a `List α`.
- Python exceptions are modelled with `Except Err`; `None` with `Option`.
- `numpy.asarray` of a non-empty list of coordinate pairs is a 2-d array,
  of an empty list a 1-d empty array; `numpy.concatenate` raises `ValueError`
  when the dimensions of its arguments disagree.  This is captured by
  `np_ndim` / `np_concat_rings`.
- `vals = ones(n) * LINETO; vals[0] = MOVETO` raises `IndexError` when
  `n = 0`; this is captured in `coding`.
-/

namespace Descartes

/-- Decidable equality for `Except`, so that concrete runs of the embedded
code can be checked by `decide`. -/
instance instDecEqExcept {ε σ : Type} [DecidableEq ε] [DecidableEq σ] :
    DecidableEq (Except ε σ) := fun x y =>
  match x, y with
  | Except.ok a, Except.ok b =>
    if h : a = b then isTrue (by rw [h])
    else isFalse (by intro he; cases he; exact h rfl)
  | Except.error a, Except.error b =>
    if h : a = b then isTrue (by rw [h])
    else isFalse (by intro he; cases he; exact h rfl)
  | Except.ok _, Except.error _ => isFalse (by intro he; cases he)
  | Except.error _, Except.ok _ => isFalse (by intro he; cases he)

/-- Python exceptions that the code in `patch.py` can raise. -/
inductive Err where
  | assertionError : String → Err
  | indexError : Err
  | valueError : Err
deriving DecidableEq

/-- Draw commands of a matplotlib path (`Path.MOVETO` / `Path.LINETO`). -/
inductive PathCode where
  | moveto : PathCode
  | lineto : PathCode
deriving DecidableEq

/-- A shapely linear ring: an object with a `coords` sequence. -/
structure LinearRing (α : Type) where
  coords : List α
deriving DecidableEq

/-- A shapely-style polygon object: exposes `geom_type`, `exterior` and
`interiors` attributes. -/
structure ShapelyPolygon (α : Type) where
  geom_type : String
  exterior : LinearRing α
  interiors : List (LinearRing α)
deriving DecidableEq

/-- A GeoJSON-style mapping: the `type` and `coordinates` keys, each possibly
absent (`dict.get` with a default is used for both in the source). -/
structure GeoMapping (α : Type) where
  type : Option String
  coordinates : Option (List (List α))
deriving DecidableEq

/-- The possible inputs to `Polygon.__init__`:
- `shapelyObj s g`: an object with `exterior` / `interiors` attributes
  (it may additionally expose `__geo_interface__`, carried as `g`, which the
  constructor must ignore by the priority order);
- `geoObj m`: an object without those attributes but with a
  `__geo_interface__` property yielding the mapping `m`;
- `geoDict m`: a plain mapping. -/
inductive PolygonInput (α : Type) where
  | shapelyObj : ShapelyPolygon α → Option (GeoMapping α) → PolygonInput α
  | geoObj : GeoMapping α → PolygonInput α
  | geoDict : GeoMapping α → PolygonInput α
deriving DecidableEq

variable {α : Type} {κ : Type}

/-- Python `hasattr(context, 'exterior')` for the inputs modelled here. -/
def hasattr_exterior : PolygonInput α → Bool
  | .shapelyObj _ _ => true
  | .geoObj _ => false
  | .geoDict _ => false

/-- Python `hasattr(context, 'interiors')` for the inputs modelled here. -/
def hasattr_interiors : PolygonInput α → Bool
  | .shapelyObj _ _ => true
  | .geoObj _ => false
  | .geoDict _ => false

/-- Python `hasattr(context, '__geo_interface__')` for the inputs modelled
here. -/
def hasattr_geo_interface : PolygonInput α → Bool
  | .shapelyObj _ g => g.isSome
  | .geoObj _ => true
  | .geoDict _ => false

/-- What `Polygon.__init__` stores in `self.context`: either the shapely
object itself (kind A) or a mapping (kind B). -/
inductive Ctx (α : Type) where
  | shapelyCtx : ShapelyPolygon α → Ctx α
  | mappingCtx : GeoMapping α → Ctx α
deriving DecidableEq

/-- The adapter object built by `Polygon.__init__`. -/
structure Polygon (α : Type) where
  context : Ctx α
deriving DecidableEq

/-- The `_is_shapely` flag stored by `Polygon.__init__` (it is `true` exactly
when the stored context is the shapely object). -/
def Polygon._is_shapely (p : Polygon α) : Bool :=
  match p.context with
  | .shapelyCtx _ => true
  | .mappingCtx _ => false

/-- `Polygon.__init__`: if the context has `interiors` or `exterior`
attributes it is stored directly (kind A); else if it has
`__geo_interface__` the converted mapping is stored (kind B); else the
context itself is stored as a mapping (kind B). -/
def Polygon.init : PolygonInput α → Polygon α
  | .shapelyObj s _ => ⟨Ctx.shapelyCtx s⟩
  | .geoObj m => ⟨Ctx.mappingCtx m⟩
  | .geoDict m => ⟨Ctx.mappingCtx m⟩

/-- The `geom_type` property: the shapely object's `geom_type` string for
kind A, `self.context.get('type', None)` for kind B. -/
def Polygon.geom_type (p : Polygon α) : Option String :=
  match p.context with
  | .shapelyCtx s => some s.geom_type
  | .mappingCtx m => m.type

/-- The `exterior` property.  Kind A: materialize
`list(self.context.exterior.coords)` and return `None` when it is empty.
Kind B: `self.context.get('coordinates', [])[0]`, which raises `IndexError`
when the list is empty (in particular when `coordinates` is absent). -/
def Polygon.exterior (p : Polygon α) : Except Err (Option (List α)) :=
  match p.context with
  | .shapelyCtx s =>
      let ext_list := s.exterior.coords
      if ext_list.length = 0 then Except.ok none else Except.ok (some ext_list)
  | .mappingCtx m =>
      match (m.coordinates.getD []).head? with
      | some ring => Except.ok (some ring)
      | none => Except.error Err.indexError

/-- The `interiors` property.  Kind A: `[list(i.coords) for i in
self.context.interiors]`.  Kind B: `self.context.get('coordinates', [])[1:]`
(slicing never raises). -/
def Polygon.interiors (p : Polygon α) : List (List α) :=
  match p.context with
  | .shapelyCtx s => s.interiors.map (fun r => r.coords)
  | .mappingCtx m => (m.coordinates.getD []).drop 1

/-- Dimensionality of `numpy.asarray` applied to a ring: a non-empty list of
coordinate pairs yields a 2-d array, the empty list a 1-d empty array. -/
def np_ndim (ring : List α) : Nat :=
  if ring.isEmpty then 1 else 2

/-- `numpy.concatenate` on the arrays of the given rings: raises
`ValueError` when the dimensions disagree, otherwise concatenates. -/
def np_concat_rings (rings : List (List α)) : Except Err (List α) :=
  if rings.all (fun r => np_ndim r == np_ndim (rings.headD [])) then
    Except.ok rings.flatten
  else Except.error Err.valueError

/-- The inner `coding` function of `PolygonPath`: an array of `n` `LINETO`
commands whose position 0 is overwritten with `MOVETO`; when `n = 0` the
assignment `vals[0] = Path.MOVETO` raises `IndexError`. -/
def coding (ob : List α) : Except Err (List PathCode) :=
  let n := ob.length
  let vals := List.replicate n PathCode.lineto
  if n = 0 then Except.error Err.indexError
  else Except.ok (vals.set 0 PathCode.moveto)

/-- `[coding(r) for r in interiors]`: evaluated left to right, the first
exception propagates. -/
def codingList : List (List α) → Except Err (List (List PathCode))
  | [] => Except.ok []
  | r :: rs =>
    match coding r with
    | Except.error e => Except.error e
    | Except.ok c =>
      match codingList rs with
      | Except.error e => Except.error e
      | Except.ok cs => Except.ok (c :: cs)

/-- A matplotlib compound path: paired vertex and command sequences. -/
structure MplPath (α : Type) where
  vertices : List α
  codes : List PathCode
deriving DecidableEq

/-- How Python's `str` renders the value interpolated into the assertion
message `f"Wrong Type: {this.geom_type}"`. -/
def pyOptStr : Option String → String
  | some s => s
  | none => "None"

/-- The body of `PolygonPath` after wrapping the argument in the adapter,
expressed as a function of the three adapter properties it reads:
assert the geometry type, evaluate `exterior` (done first by the
`log.debug` f-string), return `None` for a `None` exterior, otherwise
concatenate vertices (first) and codes (second). -/
def pathFromView (gt : Option String) (ext : Except Err (Option (List α)))
    (ints : List (List α)) : Except Err (Option (MplPath α)) :=
  if gt ≠ some "Polygon" then
    Except.error (Err.assertionError ("Wrong Type: " ++ pyOptStr gt))
  else
    match ext with
    | Except.error e => Except.error e
    | Except.ok none => Except.ok none
    | Except.ok (some ex) =>
      match np_concat_rings (ex :: ints) with
      | Except.error e => Except.error e
      | Except.ok vertices =>
        match coding ex with
        | Except.error e => Except.error e
        | Except.ok c0 =>
          match codingList ints with
          | Except.error e => Except.error e
          | Except.ok cs =>
            Except.ok (some ⟨vertices, c0 ++ cs.flatten⟩)

/-- `PolygonPath(polygon)`: wrap the argument in the adapter and build the
compound path from its `geom_type`, `exterior` and `interiors`. -/
def PolygonPath (polygon : PolygonInput α) : Except Err (Option (MplPath α)) :=
  let thisPoly := Polygon.init polygon
  pathFromView thisPoly.geom_type thisPoly.exterior thisPoly.interiors

/-- A matplotlib `PathPatch`: the path plus the style kwargs passed through
verbatim.  The kwargs type `κ` is opaque to this module. -/
structure PathPatch (α : Type) (κ : Type) where
  path : MplPath α
  kwargs : κ
deriving DecidableEq

/-- `PolygonPatch(polygon, **kwargs)`: delegate to `PolygonPath`; wrap a
non-`None` path in a `PathPatch` with the kwargs, else return `None`. -/
def PolygonPatch (polygon : PolygonInput α) (kwargs : κ) :
    Except Err (Option (PathPatch α κ)) :=
  match PolygonPath polygon with
  | Except.error e => Except.error e
  | Except.ok (some ppath) => Except.ok (some ⟨ppath, kwargs⟩)
  | Except.ok none => Except.ok none

/-- Start offsets of each ring inside the flat command sequence:
`ringStarts acc [n_1, n_2, ...] = [acc, acc + n_1, acc + n_1 + n_2, ...]`
(one entry per ring). -/
def ringStarts : Nat → List Nat → List Nat
  | _, [] => []
  | acc, n :: rest => acc :: ringStarts (acc + n) rest

/-- The command block contributed by a ring of `n` vertices: one `MOVETO`
followed by `n - 1` `LINETO`s (this is what `coding` produces for `n ≥ 1`). -/
def ringBlock (n : Nat) : List PathCode :=
  PathCode.moveto :: List.replicate (n - 1) PathCode.lineto

/-- The flat command sequence of rings with the given vertex counts. -/
def blocksOf (sizes : List Nat) : List PathCode :=
  (sizes.map ringBlock).flatten

/-- The square ring of the spec's round-trip example. -/
def sqRing : List (Int × Int) := [(0, 0), (1, 0), (1, 1), (0, 1)]

/-- The square as a shapely-style polygon object with no holes. -/
def sqShapely : ShapelyPolygon (Int × Int) := ⟨"Polygon", ⟨sqRing⟩, []⟩

/-- The square as a GeoJSON mapping. -/
def sqDict : GeoMapping (Int × Int) := ⟨some "Polygon", some [sqRing]⟩

/-- A triangular hole ring with three vertices. -/
def triRing : List (Int × Int) := [(2, 2), (8, 2), (5, 8)]

/-- A MultiPolygon-typed mapping (unsupported geometry kind). -/
def mpDict : GeoMapping (Int × Int) := ⟨some "MultiPolygon", some [sqRing]⟩

/-- A Polygon-typed mapping whose `coordinates` key is absent. -/
def noCoordsDict : GeoMapping (Int × Int) := ⟨some "Polygon", none⟩

/-- A shapely-style polygon whose exterior ring has zero points. -/
def emptyExtShapely : ShapelyPolygon (Int × Int) := ⟨"Polygon", ⟨[]⟩, []⟩

/-- A shapely-style polygon with a non-empty exterior and one interior ring
with zero vertices. -/
def emptyHoleShapely : ShapelyPolygon (Int × Int) := ⟨"Polygon", ⟨sqRing⟩, [⟨[]⟩]⟩

/-- The square exterior with one triangular hole, as a shapely-style
polygon. -/
def sqTriShapely : ShapelyPolygon (Int × Int) := ⟨"Polygon", ⟨sqRing⟩, [⟨triRing⟩]⟩

/-- The adapter built from a shapely-style object reports the object's own
`geom_type`. -/
lemma shapely_geom_type (s : ShapelyPolygon α) (g : Option (GeoMapping α)) :
    (Polygon.init (PolygonInput.shapelyObj s g)).geom_type = some s.geom_type := rfl

/-- The adapter built from a shapely-style object materializes each hole's
coordinate list. -/
lemma shapely_interiors (s : ShapelyPolygon α) (g : Option (GeoMapping α)) :
    (Polygon.init (PolygonInput.shapelyObj s g)).interiors =
      s.interiors.map (fun r => r.coords) := rfl

/-- The adapter built from a shapely-style object with a non-empty exterior
ring returns that ring's coordinate list. -/
lemma shapely_exterior_ne (s : ShapelyPolygon α) (g : Option (GeoMapping α))
    (h : s.exterior.coords ≠ []) :
    (Polygon.init (PolygonInput.shapelyObj s g)).exterior =
      Except.ok (some s.exterior.coords) := by
  unfold Polygon.init Polygon.exterior
  exact if_neg (fun hc => h (List.length_eq_zero.mp hc))

/-- On a non-empty ring, `coding` succeeds and produces the ring's command
block. -/
lemma coding_of_ne_nil (r : List α) (h : r ≠ []) :
    coding r = Except.ok (ringBlock r.length) := by
  unfold coding ringBlock
  cases r with
  | nil => exact absurd rfl h
  | cons a as => simp [List.replicate_succ]

/-- On rings that are all non-empty, the list comprehension of `coding`s
succeeds and produces the command block of each ring. -/
lemma codingList_of_ne_nil (rs : List (List α)) (h : ∀ r ∈ rs, r ≠ []) :
    codingList rs = Except.ok (rs.map (fun r => ringBlock r.length)) := by
  induction rs with
  | nil => rfl
  | cons r rest ih =>
    rw [codingList, coding_of_ne_nil r (h r (by simp)),
      ih (fun x hx => h x (by simp [hx]))]
    rfl

/-- Concatenating the arrays of non-empty rings succeeds (they are all 2-d)
and flattens them. -/
lemma np_concat_of_ne_nil (rings : List (List α)) (h : ∀ r ∈ rings, r ≠ []) :
    np_concat_rings rings = Except.ok rings.flatten := by
  unfold np_concat_rings
  rw [if_pos]
  rw [List.all_eq_true]
  intro r hr
  cases rings with
  | nil => cases hr
  | cons a as =>
    have ha : a ≠ [] := h a (by simp)
    have ha' : a.isEmpty = false := by simp [List.isEmpty_iff, ha]
    have hr2 : r ≠ [] := h r hr
    have hr' : r.isEmpty = false := by simp [List.isEmpty_iff, hr2]
    simp [np_ndim, ha', hr']

/-- A ring block of a ring with at least one vertex has the ring's length. -/
lemma ringBlock_length (n : Nat) (h : 1 ≤ n) : (ringBlock n).length = n := by
  simp [ringBlock]
  omega

/-- Unfolding `blocksOf` over a cons of sizes. -/
lemma blocksOf_cons (n : Nat) (rest : List Nat) :
    blocksOf (n :: rest) = ringBlock n ++ blocksOf rest := by
  simp [blocksOf]

/-- When every ring has at least one vertex, the flat command sequence has
one command per vertex. -/
lemma blocksOf_length (sizes : List Nat) (hs : ∀ n ∈ sizes, 1 ≤ n) :
    (blocksOf sizes).length = sizes.sum := by
  induction sizes with
  | nil => rfl
  | cons n rest ih =>
    rw [blocksOf_cons, List.length_append, ringBlock_length n (hs n (by simp)),
      ih (fun m hm => hs m (by simp [hm])), List.sum_cons]

/-- Ring start positions with accumulator `acc` are the start positions with
accumulator `0`, shifted by `acc`. -/
lemma ringStarts_shift (sizes : List Nat) (acc : Nat) :
    ringStarts acc sizes = (ringStarts 0 sizes).map (fun j => acc + j) := by
  induction sizes generalizing acc with
  | nil => rfl
  | cons n rest ih =>
    simp only [ringStarts, List.map_cons, Nat.add_zero, Nat.zero_add,
      ih (acc + n), ih n, List.map_map, Function.comp_def, Nat.add_assoc]

/-- Every ring start position is at least the accumulator. -/
lemma le_of_mem_ringStarts (sizes : List Nat) (acc j : Nat)
    (h : j ∈ ringStarts acc sizes) : acc ≤ j := by
  induction sizes generalizing acc with
  | nil => cases h
  | cons n rest ih =>
    rw [ringStarts] at h
    rcases List.mem_cons.mp h with rfl | h2
    · exact le_refl _
    · exact le_trans (Nat.le_add_right acc n) (ih (acc + n) h2)

/-- Position characterization of the flat command sequence: within bounds,
a position holds `MOVETO` exactly when it is a ring start position. -/
lemma blocksOf_getD (sizes : List Nat) (hs : ∀ n ∈ sizes, 1 ≤ n)
    (i : Nat) (hi : i < sizes.sum) :
    ((blocksOf sizes).getD i PathCode.lineto = PathCode.moveto ↔
      i ∈ ringStarts 0 sizes) := by
  induction sizes generalizing i with
  | nil => simp at hi
  | cons n rest ih =>
    have hn : 1 ≤ n := hs n (by simp)
    have hrest : ∀ m ∈ rest, 1 ≤ m := fun m hm => hs m (by simp [hm])
    rw [blocksOf_cons, List.getD_eq_getElem?_getD]
    by_cases hin : i < n
    · rw [List.getElem?_append_left (by rw [ringBlock_length n hn]; exact hin)]
      cases i with
      | zero => simp [ringBlock, ringStarts]
      | succ k =>
        have hk : k < n - 1 := by omega
        rw [ringBlock]
        simp only [List.getElem?_cons_succ, List.getElem?_replicate, if_pos hk,
          Option.getD_some]
        constructor
        · intro hcontra
          exact PathCode.noConfusion hcontra
        · intro hmem
          rw [ringStarts] at hmem
          rcases List.mem_cons.mp hmem with h0 | hmem2
          · exact absurd h0 (by omega)
          · have := le_of_mem_ringStarts rest (0 + n) _ hmem2
            omega
    · push_neg at hin
      rw [List.getElem?_append_right (by rw [ringBlock_length n hn]; exact hin),
        ringBlock_length n hn, ← List.getD_eq_getElem?_getD]
      have hi2 : i - n < rest.sum := by
        rw [List.sum_cons] at hi
        omega
      rw [ih hrest (i - n) hi2, ringStarts, Nat.zero_add]
      constructor
      · intro hmem
        apply List.mem_cons_of_mem
        rw [ringStarts_shift rest n]
        exact List.mem_map.mpr ⟨i - n, hmem, by omega⟩
      · intro hmem
        rcases List.mem_cons.mp hmem with h0 | hmem2
        · omega
        · rw [ringStarts_shift rest n] at hmem2
          rcases List.mem_map.mp hmem2 with ⟨j, hj, hji⟩
          have hij : i - n = j := by omega
          rw [hij]
          exact hj

/-- C2: for every input whose adapter `geom_type` is not the string
"Polygon", `PolygonPath` fails immediately with an assertion error whose
message names the actual `geom_type` value encountered (it does not return
a path or `None`). -/
theorem C2_wrong_type_assertion (input : PolygonInput α)
    (h : (Polygon.init input).geom_type ≠ some "Polygon") :
    PolygonPath input =
      Except.error (Err.assertionError
        ("Wrong Type: " ++ pyOptStr (Polygon.init input).geom_type)) := by
  simp only [PolygonPath]
  unfold pathFromView
  rw [if_pos h]

/-- C2 witness: a MultiPolygon-typed mapping makes `PolygonPath` fail with
the message naming "MultiPolygon". -/
theorem C2_wrong_type_assertion_witness :
    PolygonPath (PolygonInput.geoDict mpDict) =
      Except.error (Err.assertionError "Wrong Type: MultiPolygon") :=
  (C2_wrong_type_assertion (PolygonInput.geoDict mpDict) (by decide)).trans
    (by decide)

/-- C3: for every attribute-based Polygon input whose exterior coordinate
list is empty, the adapter's `exterior` is `None`, `PolygonPath` returns
`None`, and `PolygonPatch` returns `None` for every style configuration,
without raising. -/
theorem C3_empty_exterior_null (s : ShapelyPolygon α) (g : Option (GeoMapping α))
    (hg : s.geom_type = "Polygon") (he : s.exterior.coords = []) :
    (Polygon.init (PolygonInput.shapelyObj s g)).exterior = Except.ok none ∧
    PolygonPath (PolygonInput.shapelyObj s g) = Except.ok none ∧
    ∀ (σ : Type) (kwargs : σ),
      PolygonPatch (PolygonInput.shapelyObj s g) kwargs = Except.ok none := by
  have hext : (Polygon.init (PolygonInput.shapelyObj s g)).exterior =
      Except.ok none := by
    simp [Polygon.init, Polygon.exterior, he]
  have hpath : PolygonPath (PolygonInput.shapelyObj s g) = Except.ok none := by
    simp only [PolygonPath]
    rw [shapely_geom_type, hg, hext]
    unfold pathFromView
    rw [if_neg (fun hcon => hcon rfl)]
  refine ⟨hext, hpath, fun σ kwargs => ?_⟩
  unfold PolygonPatch
  rw [hpath]

/-- C3 witness: the concrete empty-exterior shapely-style polygon yields
`None` from the adapter, from `PolygonPath`, and from `PolygonPatch` with a
concrete style configuration. -/
theorem C3_empty_exterior_null_witness :
    (Polygon.init (PolygonInput.shapelyObj emptyExtShapely none)).exterior =
        Except.ok none ∧
    PolygonPath (PolygonInput.shapelyObj emptyExtShapely none) = Except.ok none ∧
    PolygonPatch (PolygonInput.shapelyObj emptyExtShapely none) (0 : Nat) =
        Except.ok none := by
  have h := C3_empty_exterior_null emptyExtShapely none rfl rfl
  exact ⟨h.1, h.2.1, h.2.2 Nat 0⟩

/-- C4 counterexample: on the mapping `{"type": "Polygon"}` with no
`"coordinates"` key, the adapter's `exterior` raises `IndexError` instead
of returning an empty ordered sequence. -/
theorem C4_counterexample :
    (Polygon.init (PolygonInput.geoDict noCoordsDict)).exterior =
        Except.error Err.indexError ∧
    (Polygon.init (PolygonInput.geoDict noCoordsDict)).exterior ≠
        Except.ok (some []) := by
  constructor <;> decide

/-- C4 amended: for every mapping-based input without a `"coordinates"`
key, the adapter's `exterior` raises `IndexError` (indexing element 0 of
the empty default list), while `interiors` returns the empty sequence. -/
theorem C4_absent_coordinates (m : GeoMapping α) (h : m.coordinates = none) :
    (Polygon.init (PolygonInput.geoDict m)).exterior =
        Except.error Err.indexError ∧
    (Polygon.init (PolygonInput.geoObj m)).exterior =
        Except.error Err.indexError ∧
    (Polygon.init (PolygonInput.geoDict m)).interiors = [] ∧
    (Polygon.init (PolygonInput.geoObj m)).interiors = [] := by
  simp [Polygon.init, Polygon.exterior, Polygon.interiors, h]

/-- C4 witness: the amended behavior on the concrete coordinate-less
mapping. -/
theorem C4_absent_coordinates_witness :
    (Polygon.init (PolygonInput.geoDict noCoordsDict)).exterior =
        Except.error Err.indexError ∧
    (Polygon.init (PolygonInput.geoObj noCoordsDict)).exterior =
        Except.error Err.indexError ∧
    (Polygon.init (PolygonInput.geoDict noCoordsDict)).interiors = [] ∧
    (Polygon.init (PolygonInput.geoObj noCoordsDict)).interiors = [] :=
  C4_absent_coordinates noCoordsDict rfl

/-- C5: for every mapping-based input with coordinates `[ext, hole1,
hole2]`, the adapter's `exterior` is exactly `ext` and `interiors` exactly
`[hole1, hole2]`; with a single-element coordinates list, `interiors` is
empty. -/
theorem C5_mapping_passthrough (ext hole1 hole2 : List α) :
    ((Polygon.init (PolygonInput.geoDict
        ⟨some "Polygon", some [ext, hole1, hole2]⟩)).exterior =
          Except.ok (some ext) ∧
      (Polygon.init (PolygonInput.geoDict
        ⟨some "Polygon", some [ext, hole1, hole2]⟩)).interiors =
          [hole1, hole2]) ∧
    (Polygon.init (PolygonInput.geoDict
        ⟨some "Polygon", some [ext]⟩)).interiors = [] :=
  ⟨⟨rfl, rfl⟩, rfl⟩

/-- C5 witness: the passthrough behavior at concrete rings. -/
theorem C5_mapping_passthrough_witness :
    ((Polygon.init (PolygonInput.geoDict
        ⟨some "Polygon", some [sqRing, triRing, triRing]⟩)).exterior =
          Except.ok (some sqRing) ∧
      (Polygon.init (PolygonInput.geoDict
        ⟨some "Polygon", some [sqRing, triRing, triRing]⟩)).interiors =
          [triRing, triRing]) ∧
    (Polygon.init (PolygonInput.geoDict
        ⟨some "Polygon", some [sqRing]⟩)).interiors = [] :=
  C5_mapping_passthrough sqRing triRing triRing

/-- C7: construction classifies inputs by priority: attribute-based objects
are stored directly as kind A (even when they also expose
`__geo_interface__`); otherwise an object with `__geo_interface__` is
stored as its converted mapping; otherwise the object itself is stored as a
mapping.  The stored `_is_shapely` flag records the discrimination made at
construction. -/
theorem C7_construction_priority (i : PolygonInput α) :
    ((hasattr_interiors i || hasattr_exterior i) = true →
        ∃ s g, i = PolygonInput.shapelyObj s g ∧
          Polygon.init i = ⟨Ctx.shapelyCtx s⟩) ∧
    ((hasattr_interiors i || hasattr_exterior i) = false →
      hasattr_geo_interface i = true →
        ∃ m, i = PolygonInput.geoObj m ∧
          Polygon.init i = ⟨Ctx.mappingCtx m⟩) ∧
    ((hasattr_interiors i || hasattr_exterior i) = false →
      hasattr_geo_interface i = false →
        ∃ m, i = PolygonInput.geoDict m ∧
          Polygon.init i = ⟨Ctx.mappingCtx m⟩) ∧
    (Polygon.init i)._is_shapely = (hasattr_interiors i || hasattr_exterior i) := by
  cases i with
  | shapelyObj s g =>
    refine ⟨fun _ => ⟨s, g, rfl, rfl⟩, fun h _ => ?_, fun h _ => ?_, rfl⟩ <;>
      simp [hasattr_interiors, hasattr_exterior] at h
  | geoObj m =>
    refine ⟨fun h => ?_, fun _ _ => ⟨m, rfl, rfl⟩, fun _ h => ?_, rfl⟩ <;>
      simp [hasattr_interiors, hasattr_exterior, hasattr_geo_interface] at h
  | geoDict m =>
    refine ⟨fun h => ?_, fun _ h => ?_, fun _ _ => ⟨m, rfl, rfl⟩, rfl⟩ <;>
      simp [hasattr_interiors, hasattr_exterior, hasattr_geo_interface] at h

/-- C7 witness: an object exposing both the exterior/interiors attributes
and a `__geo_interface__` property is classified as kind A and stored
directly. -/
theorem C7_construction_priority_witness :
    ∃ s g, PolygonInput.shapelyObj sqShapely (some sqDict) =
        PolygonInput.shapelyObj s g ∧
      Polygon.init (PolygonInput.shapelyObj sqShapely (some sqDict)) =
        ⟨Ctx.shapelyCtx s⟩ :=
  (C7_construction_priority (PolygonInput.shapelyObj sqShapely (some sqDict))).1
    rfl

/-- C8: the adapter's `geom_type` returns the wrapped object's own type-tag
string for kind A, and the mapping's `"type"` entry for kind B, `None` when
that key is absent. -/
theorem C8_geom_type (s : ShapelyPolygon α) (g : Option (GeoMapping α))
    (m : GeoMapping α) :
    (Polygon.init (PolygonInput.shapelyObj s g)).geom_type = some s.geom_type ∧
    (Polygon.init (PolygonInput.geoObj m)).geom_type = m.type ∧
    (Polygon.init (PolygonInput.geoDict m)).geom_type = m.type ∧
    (Polygon.init (PolygonInput.geoDict
      ⟨none, m.coordinates⟩)).geom_type = none :=
  ⟨rfl, rfl, rfl, rfl⟩

/-- C8 witness: the `geom_type` behavior at concrete inputs. -/
theorem C8_geom_type_witness :
    (Polygon.init (PolygonInput.shapelyObj sqShapely none)).geom_type =
        some sqShapely.geom_type ∧
    (Polygon.init (PolygonInput.geoObj mpDict)).geom_type = mpDict.type ∧
    (Polygon.init (PolygonInput.geoDict mpDict)).geom_type = mpDict.type ∧
    (Polygon.init (PolygonInput.geoDict
      ⟨none, mpDict.coordinates⟩)).geom_type = none :=
  C8_geom_type sqShapely none mpDict

/-- C9 counterexample: on the concrete polygon with a square exterior and
one zero-vertex interior ring, `PolygonPath` raises `ValueError` (from
`numpy.concatenate` on arrays of mismatched dimensions), not the
`IndexError` the claim describes. -/
theorem C9_counterexample :
    PolygonPath (PolygonInput.shapelyObj emptyHoleShapely none) =
        Except.error Err.valueError ∧
    PolygonPath (PolygonInput.shapelyObj emptyHoleShapely none) ≠
        Except.error Err.indexError := by
  constructor <;> decide

/-- C9 amended: for every Polygon input with a non-empty exterior ring and
at least one zero-vertex interior ring, `PolygonPath` raises a `ValueError`
while concatenating the vertex arrays (the empty ring is a 1-d array, the
others 2-d), before the command arrays are built; the empty ring is neither
skipped nor does the call return a path or `None`. -/
theorem C9_empty_interior_valueError (input : PolygonInput α) (e : List α)
    (hg : (Polygon.init input).geom_type = some "Polygon")
    (hext : (Polygon.init input).exterior = Except.ok (some e))
    (hne : e ≠ [])
    (hhole : ∃ r ∈ (Polygon.init input).interiors, r = []) :
    PolygonPath input = Except.error Err.valueError := by
  have hcc : np_concat_rings (e :: (Polygon.init input).interiors) =
      Except.error Err.valueError := by
    unfold np_concat_rings
    rw [if_neg]
    intro hall
    rw [List.all_eq_true] at hall
    rcases hhole with ⟨r, hr, rfl⟩
    have h1 := hall [] (List.mem_cons_of_mem _ hr)
    have hne2 : e.isEmpty = false := by simp [List.isEmpty_iff, hne]
    simp [np_ndim, hne2] at h1
  simp only [PolygonPath]
  rw [hg, hext]
  unfold pathFromView
  rw [if_neg (fun hcon => hcon rfl)]
  simp only [hcc]

/-- C9 amended witness: the amended behavior at the concrete square with
one empty hole. -/
theorem C9_empty_interior_valueError_witness :
    PolygonPath (PolygonInput.shapelyObj emptyHoleShapely none) =
      Except.error Err.valueError :=
  C9_empty_interior_valueError (PolygonInput.shapelyObj emptyHoleShapely none)
    sqRing rfl rfl (by decide) ⟨[], by decide, rfl⟩

/-- C10: `PolygonPath` and `PolygonPatch` are pure transformations of the
adapter view of their input: any two inputs with equal normalized
`geom_type`, `exterior` and `interiors` (in particular, equal inputs)
produce equal results, with equal style configurations passed through. -/
theorem C10_determinism (i j : PolygonInput α) (kwargs : κ)
    (h1 : (Polygon.init i).geom_type = (Polygon.init j).geom_type)
    (h2 : (Polygon.init i).exterior = (Polygon.init j).exterior)
    (h3 : (Polygon.init i).interiors = (Polygon.init j).interiors) :
    PolygonPath i = PolygonPath j ∧
    PolygonPatch i kwargs = PolygonPatch j kwargs := by
  have hp : PolygonPath i = PolygonPath j := by
    simp only [PolygonPath]
    rw [h1, h2, h3]
  refine ⟨hp, ?_⟩
  unfold PolygonPatch
  rw [hp]

/-- C10 witness: the shapely-style square and the mapping square have equal
adapter views, so the two representations produce equal paths and equal
patches. -/
theorem C10_determinism_witness :
    PolygonPath (PolygonInput.shapelyObj sqShapely none) =
        PolygonPath (PolygonInput.geoDict sqDict) ∧
    PolygonPatch (PolygonInput.shapelyObj sqShapely none) (0 : Nat) =
        PolygonPatch (PolygonInput.geoDict sqDict) (0 : Nat) :=
  C10_determinism (PolygonInput.shapelyObj sqShapely none)
    (PolygonInput.geoDict sqDict) 0 (by decide) (by decide) (by decide)

/-- C1: for every attribute-based Polygon input with a non-empty exterior
ring and non-empty interior rings, `PolygonPath` succeeds with a path whose
vertex and command sequences both have length `N + h_1 + ... + h_H`, with
`MOVETO` exactly at positions `0, N, N + h_1, N + h_1 + h_2, ...` and
`LINETO` everywhere else. -/
theorem C1_compound_path_shape (s : ShapelyPolygon α) (g : Option (GeoMapping α))
    (hg : s.geom_type = "Polygon")
    (hN : 1 ≤ s.exterior.coords.length)
    (hH : ∀ r ∈ s.interiors, 1 ≤ r.coords.length) :
    ∃ p : MplPath α,
      PolygonPath (PolygonInput.shapelyObj s g) = Except.ok (some p) ∧
      p.vertices.length =
        s.exterior.coords.length +
          (s.interiors.map (fun r => r.coords.length)).sum ∧
      p.codes.length = p.vertices.length ∧
      (∀ i, i < p.codes.length →
        (p.codes.getD i PathCode.lineto = PathCode.moveto ↔
          i ∈ ringStarts 0 (s.exterior.coords.length ::
            s.interiors.map (fun r => r.coords.length)))) := by
  have hne : s.exterior.coords ≠ [] := by
    intro hc
    rw [hc] at hN
    exact absurd hN (by simp)
  have hintsne : ∀ r ∈ s.interiors.map (fun r => r.coords), r ≠ [] := by
    intro r hr
    rcases List.mem_map.mp hr with ⟨q, hq, rfl⟩
    intro hc
    have := hH q hq
    rw [hc] at this
    exact absurd this (by simp)
  have hallne : ∀ r ∈ s.exterior.coords :: s.interiors.map (fun r => r.coords),
      r ≠ [] := by
    intro r hr
    rcases List.mem_cons.mp hr with rfl | hr2
    · exact hne
    · exact hintsne r hr2
  have hsizes : (s.exterior.coords :: s.interiors.map (fun r => r.coords)).map
      List.length =
      s.exterior.coords.length :: s.interiors.map (fun r => r.coords.length) := by
    simp [List.map_map, Function.comp_def]
  have hsz : ∀ n ∈ s.exterior.coords.length ::
      s.interiors.map (fun r => r.coords.length), 1 ≤ n := by
    intro n hn
    rcases List.mem_cons.mp hn with rfl | hn2
    · exact hN
    · rcases List.mem_map.mp hn2 with ⟨q, hq, rfl⟩
      exact hH q hq
  have hblocks : (s.exterior.coords :: s.interiors.map (fun r => r.coords)).map
        (fun r => ringBlock r.length) =
      (s.exterior.coords.length ::
        s.interiors.map (fun r => r.coords.length)).map ringBlock := by
    simp [List.map_map, Function.comp_def]
  have bigstep : PolygonPath (PolygonInput.shapelyObj s g) =
      Except.ok (some
        ⟨(s.exterior.coords :: s.interiors.map (fun r => r.coords)).flatten,
          blocksOf (s.exterior.coords.length ::
            s.interiors.map (fun r => r.coords.length))⟩) := by
    simp only [PolygonPath]
    rw [shapely_geom_type, hg, shapely_exterior_ne s g hne, shapely_interiors]
    unfold pathFromView
    rw [if_neg (fun hcon => hcon rfl)]
    simp only [np_concat_of_ne_nil _ hallne,
      coding_of_ne_nil _ hne,
      codingList_of_ne_nil _ hintsne]
    rw [show blocksOf (s.exterior.coords.length ::
          s.interiors.map (fun r => r.coords.length)) =
        ringBlock s.exterior.coords.length ++
          ((s.interiors.map (fun r => r.coords)).map
            (fun r => ringBlock r.length)).flatten from by
      rw [blocksOf]
      rw [← hsizes]
      simp [List.map_map, Function.comp_def]]
  refine ⟨_, bigstep, ?_, ?_, ?_⟩
  · rw [List.length_flatten, hsizes, List.sum_cons]
  · rw [blocksOf_length _ hsz, List.length_flatten, hsizes, List.sum_cons]
  · intro i hi
    rw [blocksOf_length _ hsz] at hi
    exact blocksOf_getD _ hsz i hi

/-- C1 witness: the square exterior with a triangular hole yields a 7-entry
path with ring starts at positions 0 and 4. -/
theorem C1_compound_path_shape_witness :
    ∃ p : MplPath (Int × Int),
      PolygonPath (PolygonInput.shapelyObj sqTriShapely none) =
        Except.ok (some p) ∧
      p.vertices.length =
        sqTriShapely.exterior.coords.length +
          (sqTriShapely.interiors.map (fun r => r.coords.length)).sum ∧
      p.codes.length = p.vertices.length ∧
      (∀ i, i < p.codes.length →
        (p.codes.getD i PathCode.lineto = PathCode.moveto ↔
          i ∈ ringStarts 0 (sqTriShapely.exterior.coords.length ::
            sqTriShapely.interiors.map (fun r => r.coords.length)))) :=
  C1_compound_path_shape sqTriShapely none rfl (by decide) (by decide)

/-- C6: whenever `PolygonPath` returns a path, its vertex sequence is
exactly the adapter's exterior ring followed by each interior ring in
order, with unmodified values; in particular the square exterior
`[(0,0),(1,0),(1,1),(0,1)]` with no holes yields those 4 vertices in that
order with commands `[MOVETO, LINETO, LINETO, LINETO]`. -/
theorem C6_vertex_order :
    (∀ (β : Type) (input : PolygonInput β) (p : MplPath β),
        PolygonPath input = Except.ok (some p) →
        ∃ e, (Polygon.init input).exterior = Except.ok (some e) ∧
          p.vertices = e ++ (Polygon.init input).interiors.flatten) ∧
    PolygonPath (PolygonInput.shapelyObj sqShapely none) =
      Except.ok (some ⟨sqRing,
        [PathCode.moveto, PathCode.lineto, PathCode.lineto, PathCode.lineto]⟩) := by
  constructor
  · intro β input p hp
    simp only [PolygonPath] at hp
    unfold pathFromView at hp
    split at hp
    · exact absurd hp (by simp)
    · split at hp
      · exact absurd hp (by simp)
      · exact absurd hp (by simp)
      · rename_i ex hex
        split at hp
        · exact absurd hp (by simp)
        · rename_i verts hverts
          split at hp
          · exact absurd hp (by simp)
          · split at hp
            · exact absurd hp (by simp)
            · rename_i cs hcs
              refine ⟨ex, hex, ?_⟩
              have hpv : p.vertices = verts := by
                have := (Except.ok.injEq _ _).mp hp
                rw [← Option.some.injEq _ _ |>.mp this]
              unfold np_concat_rings at hverts
              split at hverts
              · have hv2 : verts =
                    (ex :: (Polygon.init input).interiors).flatten := by
                  have := (Except.ok.injEq _ _).mp hverts
                  exact this.symm
                rw [hpv, hv2, List.flatten_cons]
              · exact absurd hverts (by simp)
  · decide

/-- C6 witness: the square as a mapping-based input produces the path whose
vertices are the exterior ring followed by the (empty) holes. -/
theorem C6_vertex_order_witness :
    ∃ e, (Polygon.init (PolygonInput.geoDict sqDict)).exterior =
        Except.ok (some e) ∧
      (⟨sqRing, [PathCode.moveto, PathCode.lineto, PathCode.lineto,
        PathCode.lineto]⟩ : MplPath (Int × Int)).vertices =
        e ++ (Polygon.init (PolygonInput.geoDict sqDict)).interiors.flatten :=
  C6_vertex_order.1 (Int × Int) (PolygonInput.geoDict sqDict)
    ⟨sqRing, [PathCode.moveto, PathCode.lineto, PathCode.lineto,
      PathCode.lineto]⟩ (by decide)

end Descartes
